import Mathlib

/-!
Verification of the channel-creation and naming façade of
`nidaqmx/_task_modules/ci_channel_collection.py`.

The module under verification is `CIChannelCollection`: fifteen
`add_ci_*_chan` methods, each of which (1) invokes one native driver entry
point with a fixed positional argument list, (2) checks the returned status
code through `check_for_error`, and (3) builds the returned `CIChannel`
through `_create_chan`, which resolves the virtual-channel name from the
physical specifier and the caller-supplied alias.

The helpers `unflatten_channel_string` (nidaqmx.utils), `check_for_error`
(nidaqmx.errors), `CIChannel` and `ChannelCollection` are collaborators whose
sources are not part of the verified excerpt; they are modelled from the
specification, and each such definition says so in its doc comment.  The
control flow of the `add_ci_*_chan` methods and of `_create_chan` is embedded
directly from the source.
-/

/-- Error signalled for a malformed range specifier (non-numeric or inverted
bounds), as the specification calls it. -/
structure MalformedSpecifierError where
  msg : String
deriving DecidableEq

/-- Splits a character list on a separator character; the embedding of the
comma/colon splitting used by specifier expansion. -/
def splitOnChar (sep : Char) : List Char → List (List Char)
  | [] => [[]]
  | c :: rest =>
    if c = sep then
      [] :: splitOnChar sep rest
    else
      match splitOnChar sep rest with
      | [] => [[c]]
      | h :: t => (c :: h) :: t

/-- Splits off the leading run of decimal digits of a character list,
returning the digits and the remainder.  Applied to a reversed name it
isolates the trailing numeric index of a channel name such as `Dev1/ctr0`. -/
def spanDigits : List Char → List Char × List Char
  | [] => ([], [])
  | c :: rest =>
    if c.isDigit then
      let p := spanDigits rest
      (c :: p.1, p.2)
    else ([], c :: rest)

/-- Numeric value of a decimal digit character. -/
def digitVal (c : Char) : Nat := c.toNat - 48

/-- Decimal value of a digit string, most significant digit first. -/
def digitsToNat (l : List Char) : Nat :=
  l.foldl (fun acc c => acc * 10 + digitVal c) 0

/-- Expands a numeric range over a base name: `expandRange "Dev1/ctr" 0 3`
yields `Dev1/ctr0`, `Dev1/ctr1`, `Dev1/ctr2`, `Dev1/ctr3`. -/
def expandRange (base : List Char) (lo hi : Nat) : List String :=
  (List.range (hi + 1 - lo)).map (fun k => String.mk base ++ toString (lo + k))

/-- Modelled from the spec: one comma-separated item of a channel specifier
(`nidaqmx.utils.unflatten_channel_string` is not part of the verified
excerpt).  A plain name denotes itself; a colon range `base<lo>:<hi>` denotes
the base name with every index from `lo` to `hi`; a range whose start has no
trailing digits, whose end is not numeric, or whose bounds are inverted is
malformed (spec 4.1). -/
def expandItem (item : List Char) : Except MalformedSpecifierError (List String) :=
  match splitOnChar ':' item with
  | [single] => .ok [String.mk single]
  | [before, after] =>
    let p := spanDigits before.reverse
    let startDigits := p.1.reverse
    let base := p.2.reverse
    if startDigits.isEmpty then
      .error ⟨"non-numeric range start"⟩
    else if after.isEmpty || !(after.all Char.isDigit) then
      .error ⟨"non-numeric range end"⟩
    else
      let lo := digitsToNat startDigits
      let hi := digitsToNat after
      if hi < lo then .error ⟨"inverted range bounds"⟩
      else .ok (expandRange base lo hi)
  | _ => .error ⟨"malformed range"⟩

/-- Expands every item of a comma-separated specifier, propagating the first
malformed-range error. -/
def expandItems : List (List Char) → Except MalformedSpecifierError (List String)
  | [] => .ok []
  | item :: rest => do
    let h ← expandItem item
    let t ← expandItems rest
    .ok (h ++ t)

/-- Modelled from the spec: `nidaqmx.utils.unflatten_channel_string` is not
part of the verified excerpt.  Spec 4.1: given a specifier string, produce
the ordered sequence of individual physical-channel names it denotes,
respecting range (`a:b`) and comma-list forms; a malformed range (non-numeric
or inverted bounds) signals a `MalformedSpecifierError`.  No side effects. -/
def unflatten_channel_string (s : String) : Except MalformedSpecifierError (List String) :=
  expandItems (splitOnChar ',' s.data)

/-- Embedding of the name-resolution logic of `CIChannelCollection._create_chan`
(ci_channel_collection.py lines 41-50): a non-empty alias with a specifier
expanding to more than one counter becomes `alias ++ "0:" ++ (N-1)`; a
non-empty alias otherwise stays the alias; an empty alias leaves the
specifier unchanged. -/
def resolveName (counter nameArg : String) :
    Except MalformedSpecifierError String :=
  if nameArg = "" then .ok counter
  else
    match unflatten_channel_string counter with
    | .error e => .error e
    | .ok chans =>
      if chans.length > 1 then
        .ok (nameArg ++ "0:" ++ toString (chans.length - 1))
      else .ok nameArg

/-- Instrumented variant of `resolveName`: the second component counts how
many times `unflatten_channel_string` is invoked, mirroring exactly where
`_create_chan` calls it in the source. -/
def resolveNameInstr (counter nameArg : String) :
    Except MalformedSpecifierError String × Nat :=
  if nameArg = "" then (.ok counter, 0)
  else
    match unflatten_channel_string counter with
    | .error e => (.error e, 1)
    | .ok chans =>
      if chans.length > 1 then
        (.ok (nameArg ++ "0:" ++ toString (chans.length - 1)), 1)
      else (.ok nameArg, 1)

/-- Modelled from the spec (4.4): the `CIChannel` class is not part of the
verified excerpt; `_create_chan` constructs it as
`CIChannel(self._handle, name)`, a pair of the owning task handle and the
resolved virtual-channel name. -/
structure CIChannel where
  task_handle : Nat
  name : String
deriving DecidableEq

/-- Owning task state visible to the façade: the opaque task handle the
collection was constructed with, and — modelled from the spec (4.3), since
`ChannelCollection` is not part of the verified excerpt — the task's
channel collection as an insertion-ordered sequence. -/
structure TaskState where
  handle : Nat
  channels : List CIChannel
deriving DecidableEq

/-- Structured error carrying the driver status code and its message, as
raised by the error-translation collaborator. -/
structure DaqError where
  code : Int
  message : String
deriving DecidableEq

/-- Modelled from the spec: `nidaqmx.errors.check_for_error` is not part of
the verified excerpt.  Spec 4.3: a nonzero status code is converted, together
with the driver's diagnostic message, into a structured error and raised;
a zero status code passes. -/
def check_for_error (code : Int) (message : String) : Option DaqError :=
  if code = 0 then none else some ⟨code, message⟩

/-- Outcome of one channel-creation operation. -/
inductive CreateResult where
  | created (ch : CIChannel)
  | driverError (e : DaqError)
  | specifierError (e : MalformedSpecifierError)
deriving DecidableEq

/-- Trace of one channel-creation operation: its outcome, how many native
entry-point invocations it performed, and the task's channel collection
afterwards. -/
structure CreateRun where
  result : CreateResult
  nativeCalls : Nat
  finalChannels : List CIChannel
deriving DecidableEq

/-- Embedding of the body shared by every `add_ci_*_chan` method of
`CIChannelCollection` (e.g. `add_ci_count_edges_chan`, lines 234-244): the
native entry point is invoked first and unconditionally (stubbed here by the
status code and message it returns), then `check_for_error` raises on a
nonzero status, then `_create_chan` resolves the name and constructs the
`CIChannel`.  Registration of the new channel in the owning task's
collection is Modelled from the spec (4.3: append to an insertion-ordered
sequence, no deduplication); on any error the collection is unchanged. -/
def createChanOp (st : TaskState) (driverStatus : Int) (driverMessage : String)
    (counter nameArg : String) : CreateRun :=
  match check_for_error driverStatus driverMessage with
  | some e =>
    { result := .driverError e, nativeCalls := 1, finalChannels := st.channels }
  | none =>
    match resolveName counter nameArg with
    | .error e =>
      { result := .specifierError e, nativeCalls := 1,
        finalChannels := st.channels }
    | .ok nm =>
      let ch : CIChannel := { task_handle := st.handle, name := nm }
      { result := .created ch, nativeCalls := 1,
        finalChannels := st.channels ++ [ch] }


/-- Native argument types appearing in the `cfunc.argtypes` lists of
`ci_channel_collection.py`. -/
inductive CType where
  | taskHandle
  | byteStr
  | cInt
  | cBool32
  | cDouble
  | cUInt
deriving DecidableEq

/-- One positional argument of a native call as marshalled by an
`add_ci_*_chan` method: the task handle, the physical specifier (`counter`),
the raw alias (`name_to_assign_to_channel`), or a modality-specific
configuration field named by its Python parameter. -/
inductive CallArg where
  | handle
  | specifier
  | aliasName
  | field (fieldName : String)
deriving DecidableEq

/-- Embedding of one `add_ci_*_chan` method's native call: the entry-point
name, its declared `argtypes` list, the positional arguments passed to
`cfunc`, and the method's modality-specific parameters in their declared
order. -/
structure ModalityCall where
  entryPoint : String
  argtypes : List CType
  args : List CallArg
  configParams : List String
deriving DecidableEq

/-- Transcription of the fifteen `add_ci_*_chan` methods of
`CIChannelCollection`, each with its `cfunc.argtypes` list and the argument
tuple passed to `cfunc`, in source order. -/
def ciModalities : List ModalityCall := [
  { entryPoint := "DAQmxCreateCIAngEncoderChan",
    argtypes := [.taskHandle, .byteStr, .byteStr, .cInt, .cBool32, .cDouble,
      .cInt, .cInt, .cUInt, .cDouble, .byteStr],
    args := [.handle, .specifier, .aliasName, .field "decoding_type",
      .field "zidx_enable", .field "zidx_val", .field "zidx_phase",
      .field "units", .field "pulses_per_rev", .field "initial_angle",
      .field "custom_scale_name"],
    configParams := ["decoding_type", "zidx_enable", "zidx_val", "zidx_phase",
      "units", "pulses_per_rev", "initial_angle", "custom_scale_name"] },
  { entryPoint := "DAQmxCreateCIAngVelocityChan",
    argtypes := [.taskHandle, .byteStr, .byteStr, .cDouble, .cDouble, .cInt,
      .cInt, .cUInt, .byteStr],
    args := [.handle, .specifier, .aliasName, .field "min_val",
      .field "max_val", .field "decoding_type", .field "units",
      .field "pulses_per_rev", .field "custom_scale_name"],
    configParams := ["min_val", "max_val", "decoding_type", "units",
      "pulses_per_rev", "custom_scale_name"] },
  { entryPoint := "DAQmxCreateCICountEdgesChan",
    argtypes := [.taskHandle, .byteStr, .byteStr, .cInt, .cUInt, .cInt],
    args := [.handle, .specifier, .aliasName, .field "edge",
      .field "initial_count", .field "count_direction"],
    configParams := ["edge", "initial_count", "count_direction"] },
  { entryPoint := "DAQmxCreateCIDutyCycleChan",
    argtypes := [.taskHandle, .byteStr, .byteStr, .cDouble, .cDouble, .cInt,
      .byteStr],
    args := [.handle, .specifier, .aliasName, .field "min_freq",
      .field "max_freq", .field "edge", .field "custom_scale_name"],
    configParams := ["min_freq", "max_freq", "edge", "custom_scale_name"] },
  { entryPoint := "DAQmxCreateCIFreqChan",
    argtypes := [.taskHandle, .byteStr, .byteStr, .cDouble, .cDouble, .cInt,
      .cInt, .cInt, .cDouble, .cUInt, .byteStr],
    args := [.handle, .specifier, .aliasName, .field "min_val",
      .field "max_val", .field "units", .field "edge", .field "meas_method",
      .field "meas_time", .field "divisor", .field "custom_scale_name"],
    configParams := ["min_val", "max_val", "units", "edge", "meas_method",
      "meas_time", "divisor", "custom_scale_name"] },
  { entryPoint := "DAQmxCreateCIGPSTimestampChan",
    argtypes := [.taskHandle, .byteStr, .byteStr, .cInt, .cInt, .byteStr],
    args := [.handle, .specifier, .aliasName, .field "units",
      .field "sync_method", .field "custom_scale_name"],
    configParams := ["units", "sync_method", "custom_scale_name"] },
  { entryPoint := "DAQmxCreateCILinEncoderChan",
    argtypes := [.taskHandle, .byteStr, .byteStr, .cInt, .cBool32, .cDouble,
      .cInt, .cInt, .cDouble, .cDouble, .byteStr],
    args := [.handle, .specifier, .aliasName, .field "decoding_type",
      .field "zidx_enable", .field "zidx_val", .field "zidx_phase",
      .field "units", .field "dist_per_pulse", .field "initial_pos",
      .field "custom_scale_name"],
    configParams := ["decoding_type", "zidx_enable", "zidx_val", "zidx_phase",
      "units", "dist_per_pulse", "initial_pos", "custom_scale_name"] },
  { entryPoint := "DAQmxCreateCILinVelocityChan",
    argtypes := [.taskHandle, .byteStr, .byteStr, .cDouble, .cDouble, .cInt,
      .cInt, .cDouble, .byteStr],
    args := [.handle, .specifier, .aliasName, .field "min_val",
      .field "max_val", .field "decoding_type", .field "units",
      .field "dist_per_pulse", .field "custom_scale_name"],
    configParams := ["min_val", "max_val", "decoding_type", "units",
      "dist_per_pulse", "custom_scale_name"] },
  { entryPoint := "DAQmxCreateCIPeriodChan",
    argtypes := [.taskHandle, .byteStr, .byteStr, .cDouble, .cDouble, .cInt,
      .cInt, .cInt, .cDouble, .cUInt, .byteStr],
    args := [.handle, .specifier, .aliasName, .field "min_val",
      .field "max_val", .field "units", .field "edge", .field "meas_method",
      .field "meas_time", .field "divisor", .field "custom_scale_name"],
    configParams := ["min_val", "max_val", "units", "edge", "meas_method",
      "meas_time", "divisor", "custom_scale_name"] },
  { entryPoint := "DAQmxCreateCIPulseChanFreq",
    argtypes := [.taskHandle, .byteStr, .byteStr, .cDouble, .cDouble, .cInt],
    args := [.handle, .specifier, .aliasName, .field "min_val",
      .field "max_val", .field "units"],
    configParams := ["min_val", "max_val", "units"] },
  { entryPoint := "DAQmxCreateCIPulseChanTicks",
    argtypes := [.taskHandle, .byteStr, .byteStr, .byteStr, .cDouble,
      .cDouble],
    args := [.handle, .specifier, .aliasName, .field "source_terminal",
      .field "min_val", .field "max_val"],
    configParams := ["source_terminal", "min_val", "max_val"] },
  { entryPoint := "DAQmxCreateCIPulseChanTime",
    argtypes := [.taskHandle, .byteStr, .byteStr, .cDouble, .cDouble, .cInt],
    args := [.handle, .specifier, .aliasName, .field "min_val",
      .field "max_val", .field "units"],
    configParams := ["min_val", "max_val", "units"] },
  { entryPoint := "DAQmxCreateCIPulseWidthChan",
    argtypes := [.taskHandle, .byteStr, .byteStr, .cDouble, .cDouble, .cInt,
      .cInt, .byteStr],
    args := [.handle, .specifier, .aliasName, .field "min_val",
      .field "max_val", .field "units", .field "starting_edge",
      .field "custom_scale_name"],
    configParams := ["min_val", "max_val", "units", "starting_edge",
      "custom_scale_name"] },
  { entryPoint := "DAQmxCreateCISemiPeriodChan",
    argtypes := [.taskHandle, .byteStr, .byteStr, .cDouble, .cDouble, .cInt,
      .byteStr],
    args := [.handle, .specifier, .aliasName, .field "min_val",
      .field "max_val", .field "units", .field "custom_scale_name"],
    configParams := ["min_val", "max_val", "units", "custom_scale_name"] },
  { entryPoint := "DAQmxCreateCITwoEdgeSepChan",
    argtypes := [.taskHandle, .byteStr, .byteStr, .cDouble, .cDouble, .cInt,
      .cInt, .cInt, .byteStr],
    args := [.handle, .specifier, .aliasName, .field "min_val",
      .field "max_val", .field "units", .field "first_edge",
      .field "second_edge", .field "custom_scale_name"],
    configParams := ["min_val", "max_val", "units", "first_edge",
      "second_edge", "custom_scale_name"] }]

/-- Checks the marshalling discipline of one method: the argument tuple has
exactly as many entries as the declared `argtypes` list, starts with the task
handle, the physical specifier and the raw alias in that order, and continues
with the modality-specific configuration fields in their declared order. -/
def marshallingOk (m : ModalityCall) : Bool :=
  m.args.length == m.argtypes.length &&
  m.args.take 3 == [CallArg.handle, CallArg.specifier, CallArg.aliasName] &&
  m.args.drop 3 == m.configParams.map CallArg.field

/-- Claim C1: a channel-creation operation called with a physical specifier
expanding to N > 1 counters and a non-empty alias A returns a Channel whose
name is A followed by "0:" followed by N-1. -/
theorem ci_create_multi_counter_alias_name (st : TaskState) (msg S A : String)
    (l : List String) (hA : A ≠ "")
    (h : unflatten_channel_string S = .ok l) (hN : 1 < l.length) :
    (createChanOp st 0 msg S A).result =
      .created ⟨st.handle, A ++ "0:" ++ toString (l.length - 1)⟩ := by
  simp [createChanOp, check_for_error, resolveName, hA, h, hN]

/-- Spot check of claim C1 on the spec's own example: specifier
"Dev1/ctr0:3" with alias "myctr" expands to four counters and yields the
resolved name "myctr0:3". -/
theorem ci_create_multi_counter_alias_name_spot :
    (createChanOp ⟨7, []⟩ 0 "" "Dev1/ctr0:3" "myctr").result =
      CreateResult.created ⟨7, "myctr0:3"⟩ :=
  ci_create_multi_counter_alias_name ⟨7, []⟩ "" "Dev1/ctr0:3" "myctr"
    ["Dev1/ctr0", "Dev1/ctr1", "Dev1/ctr2", "Dev1/ctr3"]
    (by decide) rfl (by decide)

/-- Claim C2 fails on the code: with the malformed (inverted) specifier
"ctr3:0", a non-empty alias "x" and a driver reporting success, the native
entry point is invoked once — not zero times as the claim requires — and the
`MalformedSpecifierError` only surfaces afterwards, during name resolution. -/
theorem ci_malformed_native_call_attempted_cex :
    (createChanOp ⟨0, []⟩ 0 "" "ctr3:0" "x").nativeCalls = 1 ∧
    (createChanOp ⟨0, []⟩ 0 "" "ctr3:0" "x").result =
      .specifierError ⟨"inverted range bounds"⟩ :=
  ⟨rfl, rfl⟩

/-- Claim C2 amended: with a malformed specifier, a non-empty alias and a
driver reporting success, the operation raises `MalformedSpecifierError`
only after the one native call has already been made, and the channel
collection is unchanged. -/
theorem ci_malformed_error_after_native_call (st : TaskState) (msg S A : String)
    (e : MalformedSpecifierError) (hA : A ≠ "")
    (h : unflatten_channel_string S = .error e) :
    (createChanOp st 0 msg S A).result = .specifierError e ∧
    (createChanOp st 0 msg S A).nativeCalls = 1 ∧
    (createChanOp st 0 msg S A).finalChannels = st.channels := by
  simp [createChanOp, check_for_error, resolveName, hA, h]

/-- Spot check of the amended claim C2 on the non-numeric specifier
"ctrX:2". -/
theorem ci_malformed_error_after_native_call_spot :
    (createChanOp ⟨1, []⟩ 0 "" "ctrX:2" "n").result =
      CreateResult.specifierError ⟨"non-numeric range start"⟩ ∧
    (createChanOp ⟨1, []⟩ 0 "" "ctrX:2" "n").nativeCalls = 1 ∧
    (createChanOp ⟨1, []⟩ 0 "" "ctrX:2" "n").finalChannels = [] :=
  ci_malformed_error_after_native_call ⟨1, []⟩ "" "ctrX:2" "n"
    ⟨"non-numeric range start"⟩ (by decide) rfl

/-- Claim C3: a nonzero driver status code makes the operation raise a
structured error carrying both the code and the driver's message, return no
Channel, and leave the task's channel collection unchanged. -/
theorem ci_driver_error_propagated (st : TaskState) (status : Int)
    (msg S A : String) (h : status ≠ 0) :
    (createChanOp st status msg S A).result = .driverError ⟨status, msg⟩ ∧
    (createChanOp st status msg S A).finalChannels = st.channels := by
  simp [createChanOp, check_for_error, h]

/-- Spot check of claim C3 with the spec's stub driver returning status -1
and message "bad terminal" against a task already holding one channel. -/
theorem ci_driver_error_propagated_spot :
    (createChanOp ⟨5, [⟨5, "c0"⟩]⟩ (-1) "bad terminal" "Dev1/ctr0" "x").result
      = CreateResult.driverError ⟨-1, "bad terminal"⟩ ∧
    (createChanOp ⟨5, [⟨5, "c0"⟩]⟩ (-1) "bad terminal" "Dev1/ctr0" "x").finalChannels
      = [⟨5, "c0"⟩] :=
  ci_driver_error_propagated ⟨5, [⟨5, "c0"⟩]⟩ (-1) "bad terminal" "Dev1/ctr0"
    "x" (by decide)

/-- Claim C4: a zero driver status code makes the operation return a Channel
whose name is the resolved virtual-channel name from name resolution and
whose owning-task handle is the handle the collection was constructed
with. -/
theorem ci_create_success_channel (st : TaskState) (msg S A nm : String)
    (h : resolveName S A = .ok nm) :
    (createChanOp st 0 msg S A).result = .created ⟨st.handle, nm⟩ := by
  simp [createChanOp, check_for_error, h]

/-- Spot check of claim C4: with specifier "Dev1/ctr0:1" and alias "c" the
returned Channel carries the resolved name "c0:1" — not the raw alias — and
the task handle 9. -/
theorem ci_create_success_channel_spot :
    (createChanOp ⟨9, []⟩ 0 "" "Dev1/ctr0:1" "c").result =
      CreateResult.created ⟨9, "c0:1"⟩ :=
  ci_create_success_channel ⟨9, []⟩ "" "Dev1/ctr0:1" "c" "c0:1" rfl

/-- Claim C5: a successful creation appends the new Channel at the end of
the owning task's channel collection, leaving the existing entries in place
and in order, with no deduplication by name. -/
theorem ci_create_success_appends (st : TaskState) (msg S A nm : String)
    (h : resolveName S A = .ok nm) :
    (createChanOp st 0 msg S A).finalChannels =
      st.channels ++ [⟨st.handle, nm⟩] := by
  simp [createChanOp, check_for_error, h]

/-- Spot check of claim C5: creating "Dev1/ctr0" on a task that already
holds a channel of that very name appends a duplicate rather than
deduplicating. -/
theorem ci_create_success_appends_spot :
    (createChanOp ⟨2, [⟨2, "Dev1/ctr0"⟩]⟩ 0 "" "Dev1/ctr0" "").finalChannels =
      [⟨2, "Dev1/ctr0"⟩, ⟨2, "Dev1/ctr0"⟩] :=
  ci_create_success_appends ⟨2, [⟨2, "Dev1/ctr0"⟩]⟩ "" "Dev1/ctr0" ""
    "Dev1/ctr0" rfl

/-- Claim C6: a channel-creation operation called with a specifier expanding
to exactly one counter and a non-empty alias A returns a Channel named A
unchanged. -/
theorem ci_create_single_counter_alias_name (st : TaskState) (msg S A : String)
    (l : List String) (hA : A ≠ "") (h : unflatten_channel_string S = .ok l)
    (h1 : l.length = 1) :
    (createChanOp st 0 msg S A).result = .created ⟨st.handle, A⟩ := by
  simp [createChanOp, check_for_error, resolveName, hA, h, h1]

/-- Spot check of claim C6: specifier "Dev1/ctr0" with alias "mine" yields a
Channel named exactly "mine". -/
theorem ci_create_single_counter_alias_name_spot :
    (createChanOp ⟨3, []⟩ 0 "" "Dev1/ctr0" "mine").result =
      CreateResult.created ⟨3, "mine"⟩ :=
  ci_create_single_counter_alias_name ⟨3, []⟩ "" "Dev1/ctr0" "mine"
    ["Dev1/ctr0"] (by decide) rfl rfl

/-- Claim C7: a channel-creation operation called with an empty alias and a
valid specifier S returns a Channel named S unchanged. -/
theorem ci_create_empty_alias_keeps_specifier (st : TaskState) (msg S : String)
    (l : List String) (h : unflatten_channel_string S = .ok l) :
    (createChanOp st 0 msg S "").result = .created ⟨st.handle, S⟩ := by
  simp [createChanOp, check_for_error, resolveName]

/-- Spot check of claim C7 on the compound specifier "Dev1/ctr0:3" with an
empty alias. -/
theorem ci_create_empty_alias_keeps_specifier_spot :
    (createChanOp ⟨4, []⟩ 0 "" "Dev1/ctr0:3" "").result =
      CreateResult.created ⟨4, "Dev1/ctr0:3"⟩ :=
  ci_create_empty_alias_keeps_specifier ⟨4, []⟩ "" "Dev1/ctr0:3"
    ["Dev1/ctr0", "Dev1/ctr1", "Dev1/ctr2", "Dev1/ctr3"] rfl

/-- Claim C8: every `add_ci_*_chan` method passes exactly as many positional
arguments as its declared `argtypes` list, in the order task handle, physical
specifier, raw alias, then the modality-specific configuration fields in
their declared order — and every run of the shared operation body makes
exactly one native entry-point invocation. -/
theorem ci_native_call_marshalling :
    ciModalities.all marshallingOk = true ∧
    ∀ (st : TaskState) (status : Int) (msg S A : String),
      (createChanOp st status msg S A).nativeCalls = 1 := by
  refine ⟨by decide, ?_⟩
  intro st status msg S A
  rcases hc : check_for_error status msg with _ | e
  · rcases hr : resolveName S A with e | nm <;> simp [createChanOp, hc, hr]
  · simp [createChanOp, hc]

/-- Claim C9: with an empty alias, name resolution never invokes specifier
expansion (`unflatten_channel_string` is called zero times) and resolves to
the specifier string itself, for every specifier, malformed ones included. -/
theorem ci_empty_alias_no_expansion (s : String) :
    resolveNameInstr s "" = (Except.ok s, 0) := by
  simp [resolveNameInstr]

/-- Claim C10: for a fixed non-empty alias, the resolved name depends only
on how many elements the specifier expands to — two specifiers with
expansions of equal length resolve identically. -/
theorem ci_resolved_name_depends_only_on_count (s₁ s₂ A : String)
    (l₁ l₂ : List String) (hA : A ≠ "")
    (h₁ : unflatten_channel_string s₁ = .ok l₁)
    (h₂ : unflatten_channel_string s₂ = .ok l₂)
    (hlen : l₁.length = l₂.length) :
    resolveName s₁ A = resolveName s₂ A := by
  simp [resolveName, hA, h₁, h₂, hlen]

/-- Spot check of claim C10: the range form "Dev1/ctr0:3" and the list form
"a,b,c,d" both expand to four elements and resolve to the same name under
alias "x". -/
theorem ci_resolved_name_depends_only_on_count_spot :
    resolveName "Dev1/ctr0:3" "x" = resolveName "a,b,c,d" "x" :=
  ci_resolved_name_depends_only_on_count "Dev1/ctr0:3" "a,b,c,d" "x"
    ["Dev1/ctr0", "Dev1/ctr1", "Dev1/ctr2", "Dev1/ctr3"]
    ["a", "b", "c", "d"] (by decide) rfl rfl rfl

